import Mathlib

/-!
Verification of the mender device-side authentication subsystem and the CLI
help printer.

The repository sources available are src/api/auth_test.cpp (the Authenticator
and TokenFetcher test-suite) and src/common/cli/cli.cpp (the help printer).
The Authenticator, TokenFetcher and IdentityProbe implementations themselves
(api/auth.cpp) are not part of src/, so those components are modelled from
the specification (spec.md), amended only where the repository's own tests
in src/api/auth_test.cpp demonstrably contradict the spec's words.  The CLI
help printer is embedded directly from src/common/cli/cli.cpp.
-/

namespace Auth

/-- AuthData from the spec (section 3): a token and a server_url string.
These are the two strings carried by every bus call and signal payload. -/
structure AuthData where
  token : String
  server_url : String
deriving DecidableEq, Repr

/-- Spec, section 3: an AuthData is valid iff its token is non-empty. -/
def AuthData.valid (d : AuthData) : Bool :=
  d.token != ""

/-- The invalid/empty AuthData (the state after ExpireToken and at start). -/
def emptyAuthData : AuthData := { token := "", server_url := "" }

/-- Modelled from the spec: the Authenticator fetch state machine
(section 4.5).  The spec's single `Fetching` state is split according to
which asynchronous reply is awaited: `QueryPending` after the GetJwtToken
(QueryToken) bus call has been dispatched, `WaitingSignal` after the
FetchJwtToken (TriggerFetch) bus call has been dispatched and the timeout
timer armed.  `fetching` recovers the spec's coarse Idle/Fetching view. -/
inductive FetchState where
  | Idle
  | QueryPending
  | WaitingSignal
deriving DecidableEq, Repr

/-- The spec's coarse view: both pending-reply states count as Fetching. -/
def FetchState.fetching : FetchState → Bool
  | .Idle => false
  | .QueryPending => true
  | .WaitingSignal => true

/-- Modelled from the spec: the Authenticator state (section 4.5): the cached
AuthData, the fetch state, and the FIFO waiter queue.  Waiters are identified
by a Nat tag standing for the action callback's identity. -/
structure AuthState where
  cached : AuthData
  fetch : FetchState
  waiters : List Nat
deriving DecidableEq, Repr

/-- Fresh Authenticator: invalid cache, Idle, no waiters. -/
def initialAuthState : AuthState :=
  { cached := emptyAuthData, fetch := .Idle, waiters := [] }

/-- Result delivered to an action callback: Ok of the AuthData, or the
Timeout error (spec, section 7: Timeout is the only failure mode delivered
to already-queued waiters). -/
inductive AuthResult where
  | ok (d : AuthData)
  | timeout
deriving DecidableEq, Repr

/-- The two bus method calls the Authenticator can issue on the
io.mender.Authentication1 interface (spec, section 6). -/
inductive BusCall where
  | GetJwtToken
  | FetchJwtToken
deriving DecidableEq, Repr

/-- Observable effects of one Authenticator step: the bus calls issued, in
order, and the callbacks handed to the event loop, in order.  Callbacks are
always posted to the loop (deferred to a later loop iteration), never
executed inside the step itself; `posted` records them as
(action identity, result) pairs. -/
structure Effects where
  calls : List BusCall := []
  posted : List (Nat × AuthResult) := []
deriving DecidableEq, Repr

/-- Concatenation of the effects of two consecutive steps. -/
def Effects.append (e1 e2 : Effects) : Effects :=
  { calls := e1.calls ++ e2.calls, posted := e1.posted ++ e2.posted }

/-- The events a run of the Authenticator can observe: a WithToken call
(tagged with the action's identity), the arrival of the GetJwtToken reply
carrying (token, server_url), the JwtTokenStateChange signal, the expiry of
the timeout timer, and an ExpireToken call. -/
inductive Event where
  | withToken (a : Nat)
  | queryReply (token : String) (url : String)
  | signal (token : String) (url : String)
  | timerFire
  | expire
deriving DecidableEq, Repr

/-- Modelled from the spec: WithToken (section 4.5).  If the cached AuthData
is valid, the action is posted to the loop with Ok of the cache and nothing
else changes.  Otherwise the action is enqueued as a waiter; if additionally
FetchState is Idle, the GetJwtToken query is dispatched and the state moves
to QueryPending; if a fetch is already in flight the call is folded into the
existing waiter queue with no bus traffic. -/
def withTokenStep (s : AuthState) (a : Nat) : AuthState × Effects :=
  if s.cached.valid then
    (s, { posted := [(a, .ok s.cached)] })
  else
    match s.fetch with
    | .Idle =>
        ({ s with fetch := .QueryPending, waiters := s.waiters ++ [a] },
         { calls := [.GetJwtToken] })
    | _ =>
        ({ s with waiters := s.waiters ++ [a] }, {})

/-- Modelled from the spec: arrival of the GetJwtToken reply (section 4.5).
A valid reply is cached, the entire waiter queue is drained FIFO with Ok of
it and the state returns to Idle; an empty reply makes the Authenticator
issue FetchJwtToken (TriggerFetch), arm the timeout timer and wait for the
signal.  A reply arriving in any other state is ignored. -/
def queryReplyStep (s : AuthState) (token url : String) : AuthState × Effects :=
  match s.fetch with
  | .QueryPending =>
      let d : AuthData := { token := token, server_url := url }
      if d.valid then
        ({ cached := d, fetch := .Idle, waiters := [] },
         { posted := s.waiters.map (fun w => (w, .ok d)) })
      else
        ({ s with fetch := .WaitingSignal }, { calls := [.FetchJwtToken] })
  | _ => (s, {})

/-- Modelled from the spec: the JwtTokenStateChange handler (section 4.5),
always active for the lifetime of the instance.  The received pair is cached
unconditionally, independent of FetchState; if a fetch is in flight the
timeout timer is cancelled, the waiter queue is drained FIFO with Ok of the
new AuthData and the state returns to Idle. -/
def signalStep (s : AuthState) (token url : String) : AuthState × Effects :=
  let d : AuthData := { token := token, server_url := url }
  if s.fetch.fetching then
    ({ cached := d, fetch := .Idle, waiters := [] },
     { posted := s.waiters.map (fun w => (w, .ok d)) })
  else
    ({ s with cached := d }, {})

/-- Modelled from the spec: the timeout handler (section 4.5).  It fires only
while the trigger's timer is armed (WaitingSignal): the waiter queue is
drained with the Timeout failure, the cache is left untouched and the state
returns to Idle.  A late firing in any other state is a no-op (the timer is
cancelled by the signal handler). -/
def timerFireStep (s : AuthState) : AuthState × Effects :=
  match s.fetch with
  | .WaitingSignal =>
      ({ s with fetch := .Idle, waiters := [] },
       { posted := s.waiters.map (fun w => (w, .timeout)) })
  | _ => (s, {})

/-- ExpireToken exactly as the spec words it (section 4.5): synchronously
invalidate the cached AuthData and change nothing else.  Kept separately
because the repository's tests contradict this behaviour (see
clearTestTrace below). -/
def expireStepSpecWords (s : AuthState) : AuthState × Effects :=
  ({ s with cached := emptyAuthData }, {})

/-- Modelled from the spec, amended by the repository's tests: ExpireToken
invalidates the cached AuthData and, when no fetch is in flight, itself
starts the new fetch cycle by issuing FetchJwtToken (TriggerFetch) and
arming the timeout timer.  The amendment is forced by
AuthenticatorTwoActionsWithTokenClearTest (src/api/auth_test.cpp, lines
268-335): after ExpireToken the test expects exactly one further bus call,
FetchJwtToken (n_replies == 2 in total), and expects the follow-up action to
receive the pair carried by the JwtTokenStateChange signal that only the
FetchJwtToken handler emits; under the spec's words the next WithToken would
instead re-issue GetJwtToken and deliver that stale valid reply.  A fetch
already in flight continues unaffected. -/
def expireStep (s : AuthState) : AuthState × Effects :=
  if s.fetch.fetching then
    ({ s with cached := emptyAuthData }, {})
  else
    ({ s with cached := emptyAuthData, fetch := .WaitingSignal },
     { calls := [.FetchJwtToken] })

/-- One step of the Authenticator, parameterised by the ExpireToken
behaviour (the spec's words and the test-forced behaviour are compared). -/
def stepWith (ex : AuthState → AuthState × Effects) (s : AuthState) :
    Event → AuthState × Effects
  | .withToken a => withTokenStep s a
  | .queryReply t u => queryReplyStep s t u
  | .signal t u => signalStep s t u
  | .timerFire => timerFireStep s
  | .expire => ex s

/-- Run a sequence of events, accumulating effects in order. -/
def runWith (ex : AuthState → AuthState × Effects) :
    AuthState → List Event → AuthState × Effects
  | s, [] => (s, {})
  | s, e :: es =>
      let r1 := stepWith ex s e
      let r2 := runWith ex r1.1 es
      (r2.1, r1.2.append r2.2)

/-- One step of the Authenticator as the repository's tests force it. -/
def step (s : AuthState) (e : Event) : AuthState × Effects :=
  stepWith expireStep s e

/-- A run of the Authenticator as the repository's tests force it. -/
def run (s : AuthState) (es : List Event) : AuthState × Effects :=
  runWith expireStep s es

/-- A run of the Authenticator with ExpireToken taken at the spec's words. -/
def runSpecWords (s : AuthState) (es : List Event) : AuthState × Effects :=
  runWith expireStepSpecWords s es

/-- The token and server url used throughout src/api/auth_test.cpp. -/
def JWT_TOKEN : String := "FOOBARJWTTOKEN"

/-- The server url used throughout src/api/auth_test.cpp. -/
def SERVER_URL : String := "some.server"

/-- The event trace of AuthenticatorTwoActionsWithTokenClearTest
(src/api/auth_test.cpp, lines 268-335) as seen by the Authenticator: a first
WithToken, the fake manager's GetJwtToken reply (JWT_TOKEN, SERVER_URL),
then - inside the first action - ExpireToken followed by a second WithToken,
and finally the JwtTokenStateChange signal the fake manager's FetchJwtToken
handler emits.  The trailing events only occur when FetchJwtToken is
actually called; under the spec-words model the GetJwtToken reply to a
re-issued query is what arrives instead (see the counterexample theorems). -/
def clearTestTrace : List Event :=
  [.withToken 1, .queryReply JWT_TOKEN SERVER_URL, .expire,
   .withToken 2, .signal (JWT_TOKEN ++ "2") (SERVER_URL ++ "2")]

/-- The result the test asserts for the second action
(src/api/auth_test.cpp, lines 317-326): the pair carried by the
JwtTokenStateChange signal, (JWT_TOKEN ++ "2", SERVER_URL ++ "2"). -/
def clearTestAction2Expected : AuthResult :=
  .ok { token := JWT_TOKEN ++ "2", server_url := SERVER_URL ++ "2" }

/-!  IdentityProbe output parsing (spec, sections 4.1 and 6).  The parsing
code itself (api/auth.cpp) is not in src/; it is modelled from the spec:
line-oriented key=value output, lines without a separator ignored, the value
taken from the last occurrence of a key, distinct keys kept in
first-occurrence order. -/

/-- Splits a line's characters at the first occurrence of the character
signifying key=value form; the first component accumulates the key in
reverse.  Returns none when the line holds no such character. -/
def splitAtEqChars : List Char → List Char → Option (String × String)
  | [], _ => none
  | c :: rest, acc =>
      if c = '=' then some ({ data := acc.reverse }, { data := rest })
      else splitAtEqChars rest (c :: acc)

/-- Modelled from the spec: parse one probe-output line.  A line matches
key=value iff it contains the separator; the key is everything before its
first occurrence and the value everything after it.  Non-matching lines are
ignored by the caller. -/
def parseIdentityLine (line : String) : Option (String × String) :=
  splitAtEqChars line.data []

/-- Modelled from the spec: insert one parsed (key, value) pair into the
ordered identity map: an existing binding of the key is overwritten in
place (last-write-wins), a new key is appended at the end (first-occurrence
order). -/
def insertIdentity (m : List (String × String)) (kv : String × String) :
    List (String × String) :=
  match m with
  | [] => [kv]
  | p :: rest =>
      if p.1 == kv.1 then (p.1, kv.2) :: rest
      else p :: insertIdentity rest kv

/-- Modelled from the spec: build the IdentityMap from the probe's output
lines (section 4.1): parse each line, ignore non-matching ones, fold the
pairs left to right with last-write-wins insertion. -/
def ParseIdentityData (lines : List String) : List (String × String) :=
  (lines.filterMap parseIdentityLine).foldl insertIdentity []

/-- Lookup in the ordered identity map: the value of the first (and, by
construction, only) binding of the key. -/
def idLookup (m : List (String × String)) (k : String) : Option String :=
  (m.find? (fun p => p.1 == k)).map (fun p => p.2)

/-- The value at the last occurrence of a key in a list of parsed pairs;
this is the spec's words for what the map must bind a duplicated key to. -/
def lastVal : List (String × String) → String → Option String
  | [], _ => none
  | p :: rest, k =>
      match lastVal rest k with
      | some v => some v
      | none => if p.1 == k then some p.2 else none

/-- The keys of a list of parsed pairs in first-occurrence order, given the
keys already seen; this is the spec's words for the key order of the map. -/
def newKeys (seen : List String) : List (String × String) → List String
  | [] => []
  | (k, _) :: rest =>
      if seen.any (fun x => x == k) then newKeys seen rest
      else k :: newKeys (k :: seen) rest

/-- The probe output of the device-identity script created by
AuthTests::SetUp (src/api/auth_test.cpp, lines 56-72). -/
def setUpScriptOutput : List String :=
  ["key1=value1", "key2=value2", "key3=value3", "key1=value11"]

/-!  TokenFetcher (spec, section 4.3).  FetchJWTToken (api/auth.cpp) is not
in src/; it is modelled from the spec.  The probe, the signer and the HTTP
transport are external collaborators and enter as oracles; the signing
algorithm and canonical payload format are an open question of the spec, so
the payload handed to the signer is the IdentityMap itself and the posted
body is the opaque signature.  The Nat component counts the HTTP requests
issued, which makes the no-retry policy statable. -/

/-- The error kinds FetchJWTToken surfaces through its callback (spec,
section 7): probe process failure, signing failure, and HTTP transport
failure or non-200 status. -/
inductive AuthClientError where
  | ProbeError
  | SignError
  | TransportError
deriving DecidableEq, Repr

/-- An HTTP response: status code and full body. -/
structure HttpResponse where
  status : Nat
  body : String
deriving DecidableEq, Repr

/-- Modelled from the spec: FetchJWTToken (section 4.3).  Run the identity
probe; build the IdentityMap; sign the payload; issue one asynchronous HTTP
POST; on status 200 the full response body is the token, anything else is an
error.  The result is the single value delivered to the callback (invoked
exactly once), paired with the number of HTTP requests issued. -/
def FetchJWTToken
    (probe : Except Unit (List String))
    (sign : List (String × String) → Except Unit String)
    (post : String → Except Unit HttpResponse) :
    Except AuthClientError String × Nat :=
  match probe with
  | .error _ => (.error .ProbeError, 0)
  | .ok lines =>
      match sign (ParseIdentityData lines) with
      | .error _ => (.error .SignError, 0)
      | .ok signature =>
          match post signature with
          | .error _ => (.error .TransportError, 1)
          | .ok resp =>
              if resp.status == 200 then (.ok resp.body, 1)
              else (.error .TransportError, 1)

end Auth

namespace Cli

/-!  Embedding of src/common/cli/cli.cpp.  The Option/Command/App structs
are declared in common/cli.hpp (not in src/); their fields are taken from
their uses in cli.cpp.  Output is modelled as the list of printed lines;
the fixed-width column alignment and the second-column word wrapping
(JoinStringsMaxWidth / SplitString, implemented in common/common.cpp, also
not in src/) are abstracted: each two-column entry is rendered as a single
line holding the indent, the first column, the separator and the second
column.  The claims below concern which entries are printed, not their
padding. -/

/-- The C++ struct Option from common/cli.hpp (renamed: Option collides with
the Lean prelude).  Fields as used by cli.cpp. -/
structure Opt where
  long_option : String := ""
  short_option : String := ""
  description : String := ""
  default_value : String := ""
  parameter : String := ""
deriving DecidableEq, Repr

/-- A CLI command: cli.cpp uses its name, description and options. -/
structure Command where
  name : String := ""
  description : String := ""
  options : List Opt := []
deriving DecidableEq, Repr

/-- The CLI application: cli.cpp uses its name, short and long description,
version, commands and global options. -/
structure App where
  name : String := ""
  short_description : String := ""
  long_description : String := ""
  version : String := ""
  commands : List Command := []
  global_options : List Opt := []
deriving DecidableEq, Repr

/-- cli.cpp line 35: the three-space indent. -/
def indent : String := "   "

/-- cli.cpp line 36: the two-space column separator. -/
def separator : String := "  "

/-- cli.cpp lines 38-43: the built-in help option. -/
def help_option : Opt :=
  { long_option := "help", short_option := "h",
    description := "show help", default_value := "false" }

/-- cli.cpp lines 86-99: the first-column formatter of PrintOptions.
Format: --long-option[ PARAM][, -l[ PARAM]]. -/
def optionColumnOne (o : Opt) : String :=
  let str := "--" ++ o.long_option
  let str := if o.parameter != "" then str ++ " " ++ o.parameter else str
  if o.short_option != "" then
    let str := str ++ ", -" ++ o.short_option
    if o.parameter != "" then str ++ " " ++ o.parameter else str
  else str

/-- cli.cpp lines 100-107: the second-column formatter of PrintOptions.
Format: description[ (default: DEFAULT)]. -/
def optionColumnTwo (o : Opt) : String :=
  if o.default_value != "" then
    o.description ++ " (default: " ++ o.default_value ++ ")"
  else o.description

/-- One rendered two-column entry of PrintInTwoColumns (cli.cpp lines
67-76), with alignment and wrapping abstracted to one line. -/
def twoColumnLine (one two : String) : String :=
  indent ++ one ++ separator ++ two

/-- The line PrintOptions renders for one option. -/
def optionLine (o : Opt) : String :=
  twoColumnLine (optionColumnOne o) (optionColumnTwo o)

/-- cli.cpp lines 79-109: PrintOptions copies the given options, appends the
built-in help option to the copy and renders the result in two columns. -/
def PrintOptions (options : List Opt) : List String :=
  (options ++ [help_option]).map optionLine

/-- cli.cpp lines 111-121: PrintCommandHelp prints the NAME section (cli
name, command name, optional description) and the command's OPTIONS. -/
def PrintCommandHelp (cli_name : String) (command : Command) : List String :=
  ["NAME:",
   indent ++ cli_name ++ " " ++ command.name ++
     (if command.description != "" then " - " ++ command.description else ""),
   "",
   "OPTIONS:"]
  ++ PrintOptions command.options

/-- cli.cpp lines 123-156: PrintCliHelp prints the NAME, USAGE, optional
VERSION and DESCRIPTION sections, the COMMANDS table and the GLOBAL
OPTIONS. -/
def PrintCliHelp (cli : App) : List String :=
  ["NAME:",
   indent ++ cli.name ++
     (if cli.short_description != "" then " - " ++ cli.short_description else ""),
   "",
   "USAGE:",
   indent ++ cli.name ++ " [global options] command [command options] [arguments...]",
   ""]
  ++ (if cli.version != "" then ["VERSION:", indent ++ cli.version, ""] else [])
  ++ (if cli.long_description != "" then
        ["DESCRIPTION:", indent ++ cli.long_description, ""] else [])
  ++ ["COMMANDS:"]
  ++ cli.commands.map (fun c => twoColumnLine c.name c.description)
  ++ [""]
  ++ ["GLOBAL OPTIONS:"]
  ++ PrintOptions cli.global_options

/-- cli.cpp lines 158-167: PrintCliCommandHelp looks for the first command
whose name equals the given name and prints its help; when no command
matches it falls back to the full general CLI help. -/
def PrintCliCommandHelp (cli : App) (command_name : String) : List String :=
  match cli.commands.find? (fun cmd => cmd.name == command_name) with
  | some cmd => PrintCommandHelp cli.name cmd
  | none => PrintCliHelp cli

end Cli

namespace Cli

/-- A concrete command used to exercise the help printer. -/
def sampleCommand : Command :=
  { name := "install", description := "install an artifact" }

/-- A concrete application with a single command. -/
def sampleApp : App :=
  { name := "mender", commands := [sampleCommand] }

end Cli

namespace Auth

/-- While a fetch is in flight the cached AuthData is invalid.  This is the
fact behind the spec's remark that no previously cached valid AuthData can
exist when a timeout occurs (section 7). -/
def cacheInvalidWhileFetching (s : AuthState) : Prop :=
  s.fetch.fetching = true → s.cached.valid = false

end Auth

section AuthScratch

open Auth

example :
    run initialAuthState clearTestTrace =
      ({ cached := { token := JWT_TOKEN ++ "2", server_url := SERVER_URL ++ "2" },
         fetch := .Idle, waiters := [] },
       { calls := [.GetJwtToken, .FetchJwtToken],
         posted := [(1, .ok { token := JWT_TOKEN, server_url := SERVER_URL }),
                    (2, clearTestAction2Expected)] }) := by
  decide

example :
    Auth.ParseIdentityData Auth.setUpScriptOutput =
      [("key1", "value11"), ("key2", "value2"), ("key3", "value3")] := by
  decide

example : Cli.optionLine Cli.help_option =
    "   --help, -h  show help (default: false)" := by
  decide

end AuthScratch

open Auth Cli in
/-- C9: PrintOptions formats a copy of the input (the model builds the
appended list from the unchanged input), printing one entry per given
option in order, followed by exactly one final entry for the built-in help
option, rendered as first column "--help, -h" and second column
"show help (default: false)"; with an empty input the help entry is the
only one printed. -/
theorem C9_print_options (options : List Opt) :
    PrintOptions options = options.map optionLine ++ [optionLine help_option] ∧
    (PrintOptions options).length = options.length + 1 ∧
    optionColumnOne help_option = "--help, -h" ∧
    optionColumnTwo help_option = "show help (default: false)" ∧
    PrintOptions [] = [optionLine help_option] := by
  refine ⟨?_, ?_, by decide, by decide, by decide⟩
  · simp [PrintOptions]
  · simp [PrintOptions]

/-- If no element of the first chunk satisfies the predicate and the middle
element does, find? over the concatenation returns the middle element. -/
theorem find?_first_of_split {α : Type} (p : α → Bool) (l1 l2 : List α) (a : α)
    (h1 : ∀ x ∈ l1, p x = false) (h2 : p a = true) :
    (l1 ++ a :: l2).find? p = some a := by
  induction l1 with
  | nil => simp [List.find?_cons_of_pos, h2]
  | cons b t ih =>
      have hb : p b = false := h1 b (List.mem_cons_self b t)
      rw [List.cons_append, List.find?_cons_of_neg _ (by simp [hb])]
      exact ih fun x hx => h1 x (List.mem_cons_of_mem b hx)

open Cli in
/-- C10: PrintCliCommandHelp prints the command-specific help of the first
command in cli.commands whose name equals the given command name; when no
command matches it falls back to the full general CLI help; in either case
its output is non-empty, so the operation always produces output. -/
theorem C10_print_cli_command_help (cli : App) (command_name : String) :
    (∀ l1 cmd l2, cli.commands = l1 ++ cmd :: l2 →
        (cmd.name == command_name) = true →
        (∀ c ∈ l1, (c.name == command_name) = false) →
        PrintCliCommandHelp cli command_name = PrintCommandHelp cli.name cmd) ∧
    ((∀ c ∈ cli.commands, (c.name == command_name) = false) →
        PrintCliCommandHelp cli command_name = PrintCliHelp cli) ∧
    PrintCliCommandHelp cli command_name ≠ [] := by
  refine ⟨?_, ?_, ?_⟩
  · intro l1 cmd l2 hsplit hname hfirst
    unfold PrintCliCommandHelp
    rw [hsplit, find?_first_of_split _ _ _ _ hfirst hname]
  · intro hnone
    unfold PrintCliCommandHelp
    rw [List.find?_eq_none.mpr fun x hx => by simp [hnone x hx]]
  · unfold PrintCliCommandHelp
    cases h : cli.commands.find? fun cmd => cmd.name == command_name with
    | some cmd => simp [PrintCommandHelp]
    | none => simp [PrintCliHelp]

open Cli in
/-- Witness for C10 at a concrete application: the matching name prints the
command help, a non-matching name prints the general help, and the output
is non-empty. -/
theorem C10_print_cli_command_help_witness :
    PrintCliCommandHelp sampleApp "install" =
      PrintCommandHelp sampleApp.name sampleCommand ∧
    PrintCliCommandHelp sampleApp "status" = PrintCliHelp sampleApp ∧
    PrintCliCommandHelp sampleApp "install" ≠ [] :=
  ⟨(C10_print_cli_command_help sampleApp "install").1 [] sampleCommand []
      rfl (by decide) (by decide),
   (C10_print_cli_command_help sampleApp "status").2.1 (by decide),
   (C10_print_cli_command_help sampleApp "install").2.2⟩

open Auth in
/-- C2: the JwtTokenStateChange subscription is always active and every
notification updates the cached AuthData unconditionally, whatever the
FetchState; consequently, after a WithToken served by a GetJwtToken query
and an externally triggered signal carrying (t2, u2), a later WithToken is
served (t2, u2) from the cache with GetJwtToken having been called exactly
once across the whole run (the trace of
AuthenticatorExternalTokenUpdateTest, src/api/auth_test.cpp 446-529). -/
theorem C2_external_token_update (s : AuthState) (a b : Nat) (t u t2 u2 : String)
    (hv : AuthData.valid { token := t, server_url := u } = true)
    (hv2 : AuthData.valid { token := t2, server_url := u2 } = true) :
    (signalStep s t2 u2).1.cached = { token := t2, server_url := u2 } ∧
    run initialAuthState
        [.withToken a, .queryReply t u, .signal t2 u2, .withToken b] =
      ({ cached := { token := t2, server_url := u2 }, fetch := .Idle, waiters := [] },
       { calls := [.GetJwtToken],
         posted := [(a, .ok { token := t, server_url := u }),
                    (b, .ok { token := t2, server_url := u2 })] }) := by
  constructor
  · cases h : s.fetch.fetching <;> simp [signalStep, h]
  · have ht : ¬(t = "") := by simpa [AuthData.valid] using hv
    have ht2 : ¬(t2 = "") := by simpa [AuthData.valid] using hv2
    simp [run, runWith, stepWith, withTokenStep, queryReplyStep, signalStep,
      initialAuthState, emptyAuthData, AuthData.valid, FetchState.fetching,
      Effects.append, ht, ht2]

open Auth in
/-- Witness for C2 at the concrete strings of the test. -/
theorem C2_external_token_update_witness :
    (signalStep initialAuthState (JWT_TOKEN ++ "2") (SERVER_URL ++ "2")).1.cached =
      { token := JWT_TOKEN ++ "2", server_url := SERVER_URL ++ "2" } ∧
    run initialAuthState
        [.withToken 1, .queryReply JWT_TOKEN SERVER_URL,
         .signal (JWT_TOKEN ++ "2") (SERVER_URL ++ "2"), .withToken 2] =
      ({ cached := { token := JWT_TOKEN ++ "2", server_url := SERVER_URL ++ "2" },
         fetch := .Idle, waiters := [] },
       { calls := [.GetJwtToken],
         posted := [(1, .ok { token := JWT_TOKEN, server_url := SERVER_URL }),
                    (2, .ok { token := JWT_TOKEN ++ "2",
                              server_url := SERVER_URL ++ "2" })] }) :=
  C2_external_token_update initialAuthState 1 2 JWT_TOKEN SERVER_URL
    (JWT_TOKEN ++ "2") (SERVER_URL ++ "2") (by decide) (by decide)

open Auth in
/-- C3: two WithToken calls issued while the cache is empty, before the
single GetJwtToken round trip resolves, are folded into one waiter queue:
when the reply arrives both actions are posted the same Ok AuthData in FIFO
enqueue order and GetJwtToken was called exactly once (the trace of
AuthenticatorTwoActionsTest, src/api/auth_test.cpp 214-266). -/
theorem C3_two_actions_single_query (a b : Nat) (t u : String)
    (hv : AuthData.valid { token := t, server_url := u } = true) :
    run initialAuthState [.withToken a, .withToken b, .queryReply t u] =
      ({ cached := { token := t, server_url := u }, fetch := .Idle, waiters := [] },
       { calls := [.GetJwtToken],
         posted := [(a, .ok { token := t, server_url := u }),
                    (b, .ok { token := t, server_url := u })] }) := by
  have ht : ¬(t = "") := by simpa [AuthData.valid] using hv
  simp [run, runWith, stepWith, withTokenStep, queryReplyStep,
    initialAuthState, emptyAuthData, AuthData.valid, FetchState.fetching,
    Effects.append, ht]

open Auth in
/-- Witness for C3 at the concrete strings of the test. -/
theorem C3_two_actions_single_query_witness :
    run initialAuthState [.withToken 1, .withToken 2, .queryReply JWT_TOKEN SERVER_URL] =
      ({ cached := { token := JWT_TOKEN, server_url := SERVER_URL },
         fetch := .Idle, waiters := [] },
       { calls := [.GetJwtToken],
         posted := [(1, .ok { token := JWT_TOKEN, server_url := SERVER_URL }),
                    (2, .ok { token := JWT_TOKEN, server_url := SERVER_URL })] }) :=
  C3_two_actions_single_query 1 2 JWT_TOKEN SERVER_URL (by decide)

open Auth in
/-- C8: any sequence of WithToken calls made while a valid AuthData is
cached and before any ExpireToken issues no bus calls at all, leaves the
state unchanged and posts every action to the event loop (deferred, never
run inside the call) with the same cached AuthData. -/
theorem C8_cached_token_idempotence (s : AuthState) (ids : List Nat)
    (hv : s.cached.valid = true) :
    run s (ids.map .withToken) =
      (s, { calls := [], posted := ids.map fun a => (a, .ok s.cached) }) := by
  induction ids with
  | nil => simp [run, runWith]
  | cons a rest ih =>
      have ih2 : runWith expireStep s (rest.map .withToken) =
          (s, { calls := [], posted := rest.map fun a => (a, .ok s.cached) }) := ih
      simp [run, runWith, stepWith, withTokenStep, hv, ih2, Effects.append]

open Auth in
/-- Witness for C8: three repeated WithToken calls on a valid cache. -/
theorem C8_cached_token_idempotence_witness :
    run { cached := { token := JWT_TOKEN, server_url := SERVER_URL },
          fetch := .Idle, waiters := [] }
        ([1, 2, 3].map .withToken) =
      ({ cached := { token := JWT_TOKEN, server_url := SERVER_URL },
         fetch := .Idle, waiters := [] },
       { calls := [],
         posted := [1, 2, 3].map fun a =>
           (a, .ok { token := JWT_TOKEN, server_url := SERVER_URL }) }) :=
  C8_cached_token_idempotence
    { cached := { token := JWT_TOKEN, server_url := SERVER_URL },
      fetch := .Idle, waiters := [] } [1, 2, 3] (by decide)

open Auth in
/-- One step of the test-forced model preserves the invariant that the
cache is invalid while a fetch is in flight. -/
theorem step_preserves_cache_invariant (s : AuthState) (e : Event)
    (h : cacheInvalidWhileFetching s) : cacheInvalidWhileFetching (step s e).1 := by
  cases e with
  | withToken a =>
      by_cases hc : s.cached.valid = true
      · simpa [step, stepWith, withTokenStep, hc] using h
      · rw [Bool.not_eq_true] at hc
        cases hf : s.fetch <;>
          simp [cacheInvalidWhileFetching, step, stepWith, withTokenStep, hc, hf]
  | queryReply t u =>
      cases hf : s.fetch with
      | Idle => simpa [step, stepWith, queryReplyStep, hf] using h
      | WaitingSignal => simpa [step, stepWith, queryReplyStep, hf] using h
      | QueryPending =>
          by_cases hv : AuthData.valid { token := t, server_url := u } = true
          · simp [cacheInvalidWhileFetching, step, stepWith, queryReplyStep, hf, hv,
              FetchState.fetching]
          · rw [Bool.not_eq_true] at hv
            have hcc : s.cached.valid = false := h (by rw [hf]; rfl)
            simp [cacheInvalidWhileFetching, step, stepWith, queryReplyStep, hf, hv, hcc]
  | signal t u =>
      cases hf : s.fetch <;>
        simp [cacheInvalidWhileFetching, step, stepWith, signalStep, hf,
          FetchState.fetching]
  | timerFire =>
      cases hf : s.fetch with
      | Idle => simpa [step, stepWith, timerFireStep, hf] using h
      | QueryPending => simpa [step, stepWith, timerFireStep, hf] using h
      | WaitingSignal =>
          simp [cacheInvalidWhileFetching, step, stepWith, timerFireStep, hf,
            FetchState.fetching]
  | expire =>
      cases hf : s.fetch <;>
        simp [cacheInvalidWhileFetching, step, stepWith, expireStep, hf,
          FetchState.fetching, emptyAuthData, AuthData.valid]

open Auth in
/-- The invariant holds of every state reachable from an invariant state. -/
theorem run_preserves_cache_invariant (es : List Event) (s : AuthState)
    (h : cacheInvalidWhileFetching s) : cacheInvalidWhileFetching (run s es).1 := by
  induction es generalizing s with
  | nil => simpa [run, runWith] using h
  | cons e es ih =>
      have h1 := step_preserves_cache_invariant s e h
      have h2 := ih (step s e).1 h1
      simpa [run, runWith, step] using h2

open Auth in
/-- C4: in any reachable state where the fetch cycle is waiting for the
JwtTokenStateChange signal, firing the timeout timer drains the entire
waiter queue with the Timeout failure (so no token value, stale or
otherwise, is delivered to any waiter), leaves the cached AuthData
untouched and still invalid, issues no bus call, and transitions the fetch
state back to Idle (the behaviour exercised by
AuthenticatorTwoActionsWithTokenClearAndTimeoutTest,
src/api/auth_test.cpp 337-397). -/
theorem C4_timeout_drains_waiters (es : List Event) (s : AuthState) (ef : Effects)
    (hr : run initialAuthState es = (s, ef))
    (hf : s.fetch = .WaitingSignal) :
    timerFireStep s =
      ({ cached := s.cached, fetch := .Idle, waiters := [] },
       { calls := [], posted := s.waiters.map fun w => (w, .timeout) }) ∧
    (∀ p ∈ (timerFireStep s).2.posted, p.2 = AuthResult.timeout) ∧
    s.cached.valid = false := by
  refine ⟨by simp [timerFireStep, hf], ?_, ?_⟩
  · intro p hp
    simp [timerFireStep, hf] at hp
    obtain ⟨w, _, hw⟩ := hp
    simp [← hw]
  · have hinv := run_preserves_cache_invariant es initialAuthState
      (by intro hff; rfl)
    rw [hr] at hinv
    exact hinv (by rw [hf]; rfl)

open Auth in
/-- Witness for C4 at the state reached by a WithToken whose query reply is
empty: one waiter, WaitingSignal, invalid cache. -/
theorem C4_timeout_drains_waiters_witness :
    timerFireStep { cached := emptyAuthData, fetch := .WaitingSignal, waiters := [1] } =
      ({ cached := emptyAuthData, fetch := .Idle, waiters := [] },
       { calls := [], posted := [(1, .timeout)] }) ∧
    (∀ p ∈ (timerFireStep { cached := emptyAuthData, fetch := .WaitingSignal, waiters := [1] }).2.posted, p.2 = AuthResult.timeout) ∧
    AuthData.valid emptyAuthData = false :=
  C4_timeout_drains_waiters [.withToken 1, .queryReply "" ""]
    { cached := emptyAuthData, fetch := .WaitingSignal, waiters := [1] }
    { calls := [.GetJwtToken, .FetchJwtToken], posted := [] }
    (by decide) rfl

open Auth in
/-- C1, amended: a WithToken call that finds the cached AuthData invalid
while the fetch state is Idle first dispatches the GetJwtToken query and
only enqueues the action; when the query's reply arrives, a valid reply is
cached and satisfies the whole waiter queue FIFO with Ok of it without any
FetchJwtToken call, while an empty reply makes the Authenticator issue the
single FetchJwtToken trigger.  The first WithToken call after ExpireToken,
however, is not such a call: ExpireToken itself has already triggered the
fetch, so that call issues no bus call at all. -/
theorem C1_idle_fetch_cycle (s : AuthState) (a : Nat) (t u : String)
    (hc : s.cached.valid = false) (hidle : s.fetch = .Idle) :
    withTokenStep s a =
      ({ s with fetch := .QueryPending, waiters := s.waiters ++ [a] },
       { calls := [.GetJwtToken], posted := [] }) ∧
    (∀ s2 : AuthState, s2.fetch = .QueryPending →
        AuthData.valid { token := t, server_url := u } = true →
        queryReplyStep s2 t u =
          ({ cached := { token := t, server_url := u }, fetch := .Idle, waiters := [] },
           { calls := [],
             posted := s2.waiters.map fun w =>
               (w, .ok { token := t, server_url := u }) })) ∧
    (∀ s2 : AuthState, s2.fetch = .QueryPending →
        AuthData.valid { token := t, server_url := u } = false →
        queryReplyStep s2 t u =
          ({ s2 with fetch := .WaitingSignal },
           { calls := [.FetchJwtToken], posted := [] })) ∧
    (withTokenStep (expireStep s).1 a).2.calls = [] := by
  refine ⟨by simp [withTokenStep, hc, hidle], ?_, ?_, ?_⟩
  · intro s2 hf2 hv
    simp [queryReplyStep, hf2, hv]
  · intro s2 hf2 hv
    simp [queryReplyStep, hf2, hv]
  · simp [expireStep, hidle, FetchState.fetching, withTokenStep,
      emptyAuthData, AuthData.valid]

open Auth in
/-- Witness for C1 at concrete inputs: a fresh Authenticator, a valid and
an empty query reply, and the post-ExpireToken call. -/
theorem C1_idle_fetch_cycle_witness :
    withTokenStep initialAuthState 1 =
      ({ cached := emptyAuthData, fetch := .QueryPending, waiters := [1] },
       { calls := [.GetJwtToken], posted := [] }) ∧
    queryReplyStep { cached := emptyAuthData, fetch := .QueryPending, waiters := [1] }
        JWT_TOKEN SERVER_URL =
      ({ cached := { token := JWT_TOKEN, server_url := SERVER_URL },
         fetch := .Idle, waiters := [] },
       { calls := [],
         posted := [(1, .ok { token := JWT_TOKEN, server_url := SERVER_URL })] }) ∧
    queryReplyStep { cached := emptyAuthData, fetch := .QueryPending, waiters := [1] }
        "" "" =
      ({ cached := emptyAuthData, fetch := .WaitingSignal, waiters := [1] },
       { calls := [.FetchJwtToken], posted := [] }) ∧
    (withTokenStep (expireStep initialAuthState).1 1).2.calls = [] :=
  ⟨(C1_idle_fetch_cycle initialAuthState 1 JWT_TOKEN SERVER_URL rfl rfl).1,
   (C1_idle_fetch_cycle initialAuthState 1 JWT_TOKEN SERVER_URL rfl rfl).2.1
      { cached := emptyAuthData, fetch := .QueryPending, waiters := [1] } rfl (by decide),
   (C1_idle_fetch_cycle initialAuthState 1 "" "" rfl rfl).2.2.1
      { cached := emptyAuthData, fetch := .QueryPending, waiters := [1] } rfl (by decide),
   (C1_idle_fetch_cycle initialAuthState 1 JWT_TOKEN SERVER_URL rfl rfl).2.2.2⟩

open Auth in
/-- C1 as stated is contradicted by the repository's own test
AuthenticatorTwoActionsWithTokenClearTest (src/api/auth_test.cpp 268-335).
Under the claim, the first WithToken call after ExpireToken finds the cache
invalid and the fetch state Idle, re-issues the GetJwtToken query, and - the
test's fake manager answering (JWT_TOKEN, SERVER_URL), a valid pair - must
cache that pair and deliver it to the second action without ever calling
FetchJwtToken.  Running that behaviour (runSpecWords: ExpireToken taken at
the spec's words, so the state after expire is exactly the claim's premise)
on the test's trace delivers Ok (JWT_TOKEN, SERVER_URL) to action 2 and
never calls FetchJwtToken; the test instead asserts that action 2 receives
(JWT_TOKEN ++ "2", SERVER_URL ++ "2") - the pair that only the
JwtTokenStateChange signal emitted by the manager's FetchJwtToken handler
carries (auth_test.cpp 290-299, 317-326). -/
theorem C1_counterexample :
    (runSpecWords initialAuthState
        [.withToken 1, .queryReply JWT_TOKEN SERVER_URL, .expire,
         .withToken 2, .queryReply JWT_TOKEN SERVER_URL]).2 =
      { calls := [.GetJwtToken, .GetJwtToken],
        posted := [(1, .ok { token := JWT_TOKEN, server_url := SERVER_URL }),
                   (2, .ok { token := JWT_TOKEN, server_url := SERVER_URL })] } ∧
    AuthResult.ok { token := JWT_TOKEN, server_url := SERVER_URL } ≠
      clearTestAction2Expected := by
  constructor
  · decide
  · decide

open Auth in
/-- C7, amended: ExpireToken synchronously sets the cached AuthData to the
invalid/empty state; when a fetch is already in flight it changes nothing
else (fetch state and waiter queue unchanged, no bus call, the fetch
continues unaffected), but when the fetch state is Idle it does not stop at
clearing the cache: it immediately starts the new fetch cycle itself,
issuing the single FetchJwtToken trigger and arming the timeout timer; a
WithToken call arriving after ExpireToken therefore finds a fetch in
flight and simply enqueues onto the existing queue, with no bus call and
nothing posted. -/
theorem C7_expire_token (s : AuthState) (a : Nat) :
    (expireStep s).1.cached = emptyAuthData ∧
    (s.fetch.fetching = true →
        expireStep s = ({ s with cached := emptyAuthData },
                        { calls := [], posted := [] })) ∧
    (s.fetch = .Idle →
        expireStep s =
          ({ s with cached := emptyAuthData, fetch := .WaitingSignal },
           { calls := [.FetchJwtToken], posted := [] })) ∧
    withTokenStep (expireStep s).1 a =
      ({ (expireStep s).1 with waiters := (expireStep s).1.waiters ++ [a] },
       { calls := [], posted := [] }) := by
  refine ⟨?_, ?_, ?_, ?_⟩
  · cases hf : s.fetch <;> simp [expireStep, hf, FetchState.fetching]
  · intro hf
    simp [expireStep, hf]
  · intro hf
    simp [expireStep, hf, FetchState.fetching]
  · cases hf : s.fetch <;>
      simp [expireStep, hf, FetchState.fetching, withTokenStep,
        emptyAuthData, AuthData.valid]

open Auth in
/-- Witness for C7 in both situations: ExpireToken from Idle with a valid
cache, and ExpireToken while a fetch is in flight. -/
theorem C7_expire_token_witness :
    (expireStep { cached := { token := JWT_TOKEN, server_url := SERVER_URL }, fetch := .Idle, waiters := [] }).1.cached = emptyAuthData ∧
    expireStep { cached := emptyAuthData, fetch := .WaitingSignal, waiters := [1] } =
      ({ cached := emptyAuthData, fetch := .WaitingSignal, waiters := [1] },
       { calls := [], posted := [] }) ∧
    expireStep { cached := { token := JWT_TOKEN, server_url := SERVER_URL }, fetch := .Idle, waiters := [] } =
      ({ cached := emptyAuthData, fetch := .WaitingSignal, waiters := [] },
       { calls := [.FetchJwtToken], posted := [] }) ∧
    withTokenStep (expireStep { cached := { token := JWT_TOKEN, server_url := SERVER_URL }, fetch := .Idle, waiters := [] }).1 2 =
      ({ cached := emptyAuthData, fetch := .WaitingSignal, waiters := [2] },
       { calls := [], posted := [] }) :=
  ⟨(C7_expire_token { cached := { token := JWT_TOKEN, server_url := SERVER_URL }, fetch := .Idle, waiters := [] } 2).1,
   (C7_expire_token { cached := emptyAuthData, fetch := .WaitingSignal, waiters := [1] } 2).2.1 rfl,
   (C7_expire_token { cached := { token := JWT_TOKEN, server_url := SERVER_URL }, fetch := .Idle, waiters := [] } 2).2.2.1 rfl,
   (C7_expire_token { cached := { token := JWT_TOKEN, server_url := SERVER_URL }, fetch := .Idle, waiters := [] } 2).2.2.2⟩

open Auth in
/-- C7 as stated - ExpireToken leaves everything but the cache untouched,
so that the next WithToken starts a fresh query-first fetch cycle - is
contradicted by AuthenticatorTwoActionsWithTokenClearTest
(src/api/auth_test.cpp 268-335): with ExpireToken taken at the claim's
words the test's trace never calls FetchJwtToken, hence the fake manager
(which emits the JwtTokenStateChange signal only from its FetchJwtToken
handler, auth_test.cpp 286-299) never emits the signal, and the
(JWT_TOKEN ++ "2", SERVER_URL ++ "2") result the test asserts for the
second action (auth_test.cpp 322-323) is never delivered to anyone. -/
theorem C7_counterexample :
    BusCall.FetchJwtToken ∉
      (runSpecWords initialAuthState
        [.withToken 1, .queryReply JWT_TOKEN SERVER_URL, .expire,
         .withToken 2, .queryReply JWT_TOKEN SERVER_URL]).2.calls ∧
    (2, clearTestAction2Expected) ∉
      (runSpecWords initialAuthState
        [.withToken 1, .queryReply JWT_TOKEN SERVER_URL, .expire,
         .withToken 2, .queryReply JWT_TOKEN SERVER_URL]).2.posted := by
  constructor
  · decide
  · decide

open Auth in
/-- Inserting a pair rebinds the key if present and appends it otherwise;
the lookup of any key afterwards sees the inserted value exactly when the
keys coincide. -/
theorem idLookup_insertIdentity (m : List (String × String)) (k' v k : String) :
    idLookup (insertIdentity m (k', v)) k =
      if k' == k then some v else idLookup m k := by
  induction m with
  | nil =>
      cases h : k' == k <;>
        simp [insertIdentity, idLookup, List.find?_cons, h]
  | cons p rest ih =>
      obtain ⟨pk, pv⟩ := p
      by_cases hpk : pk = k'
      · subst hpk
        cases h : pk == k <;>
          simp [insertIdentity, idLookup, List.find?_cons, h]
      · have hpk' : (pk == k') = false := by
          rw [beq_eq_false_iff_ne]; exact hpk
        by_cases hk : pk = k
        · subst hk
          have hkk : (k' == pk) = false := by
            rw [beq_eq_false_iff_ne]; exact fun he => hpk he.symm
          simp [insertIdentity, idLookup, List.find?_cons, hpk', hkk]
        · have hk2 : (pk == k) = false := by
            rw [beq_eq_false_iff_ne]; exact hk
          have ih2 := ih
          simp only [idLookup] at ih2
          simp [insertIdentity, idLookup, List.find?_cons, hpk', hk2, ih2]

open Auth in
/-- Folding parsed pairs into an accumulator: the lookup afterwards is the
value of the key's last occurrence among the pairs, falling back to the
accumulator when the key never occurs. -/
theorem idLookup_foldl_insertIdentity (pairs : List (String × String))
    (m : List (String × String)) (k : String) :
    idLookup (pairs.foldl insertIdentity m) k =
      match lastVal pairs k with
      | some v => some v
      | none => idLookup m k := by
  induction pairs generalizing m with
  | nil => simp [lastVal]
  | cons p rest ih =>
      obtain ⟨pk, pv⟩ := p
      simp only [List.foldl_cons, lastVal]
      rw [ih]
      cases hrest : lastVal rest k with
      | some v => simp
      | none =>
          rw [idLookup_insertIdentity]
          cases h : pk == k <;> simp [h]

open Auth in
/-- Inserting a pair keeps the key list unchanged when the key is already
bound and appends the key otherwise. -/
theorem map_fst_insertIdentity (m : List (String × String)) (k v : String) :
    (insertIdentity m (k, v)).map Prod.fst =
      if m.any (fun p => p.1 == k) then m.map Prod.fst
      else m.map Prod.fst ++ [k] := by
  induction m with
  | nil => simp [insertIdentity]
  | cons p rest ih =>
      obtain ⟨pk, pv⟩ := p
      cases h : pk == k with
      | true =>
          rw [beq_iff_eq] at h
          subst h
          simp [insertIdentity, List.any_cons]
      | false =>
          have hne : (pk == k) = false := h
          have hne2 : (k == pk) = false := by
            rw [beq_eq_false_iff_ne] at hne ⊢
            exact fun he => hne he.symm
          simp only [insertIdentity, hne2, Bool.false_eq_true, if_false,
            List.any_cons, hne, Bool.false_or, List.map_cons, ih]
          cases h2 : rest.any (fun p => p.1 == k) <;> simp

open Auth in
/-- newKeys depends on the seen keys only through membership. -/
theorem newKeys_congr (s1 s2 : List String) (pairs : List (String × String))
    (h : ∀ x, s1.any (fun y => y == x) = s2.any (fun y => y == x)) :
    newKeys s1 pairs = newKeys s2 pairs := by
  induction pairs generalizing s1 s2 with
  | nil => rfl
  | cons p rest ih =>
      obtain ⟨pk, pv⟩ := p
      simp only [newKeys, h pk]
      cases h2 : s2.any (fun y => y == pk) with
      | true => simpa using ih s1 s2 h
      | false =>
          have h3 : newKeys (pk :: s1) rest = newKeys (pk :: s2) rest :=
            ih (pk :: s1) (pk :: s2) (fun x => by simp [List.any_cons, h x])
          simp [h3]

open Auth in
/-- Folding parsed pairs into an accumulator appends exactly the keys not
yet bound, in first-occurrence order. -/
theorem map_fst_foldl_insertIdentity (pairs : List (String × String))
    (m : List (String × String)) :
    (pairs.foldl insertIdentity m).map Prod.fst =
      m.map Prod.fst ++ newKeys (m.map Prod.fst) pairs := by
  induction pairs generalizing m with
  | nil => simp [newKeys]
  | cons p rest ih =>
      obtain ⟨pk, pv⟩ := p
      simp only [List.foldl_cons, newKeys]
      rw [ih]
      have hmem : (List.map Prod.fst m).any (fun x => x == pk) =
          m.any (fun p => p.1 == pk) := by
        induction m with
        | nil => rfl
        | cons q qrest ihq => simp [List.any_cons, ihq]
      cases h : m.any (fun p => p.1 == pk) with
      | true =>
          rw [hmem, h]
          simp only [map_fst_insertIdentity, h, if_true]
      | false =>
          rw [hmem, h]
          simp only [map_fst_insertIdentity, h, Bool.false_eq_true, if_false]
          rw [newKeys_congr (List.map Prod.fst m ++ [pk]) (pk :: List.map Prod.fst m)
            rest (fun x => by simp [List.any_cons, List.any_append, Bool.or_comm])]
          simp

open Auth in
/-- Dropping the non-matching lines first does not change the parse. -/
theorem filterMap_filter_isSome {α β : Type} (f : α → Option β) (l : List α) :
    (l.filter (fun x => (f x).isSome)).filterMap f = l.filterMap f := by
  induction l with
  | nil => rfl
  | cons a t ih =>
      cases h : f a with
      | none => simp [List.filter_cons, List.filterMap_cons, h, ih]
      | some b => simp [List.filter_cons, List.filterMap_cons, h, ih]

open Auth in
/-- C5: for every identity-probe output, the IdentityMap built by parsing
binds each key to the value of that key's last occurrence among the
matching lines (later occurrences overwrite earlier ones), lists the
distinct keys in first-occurrence order, and ignores the lines that do not
match key=value (parsing only the matching lines yields the same map). -/
theorem C5_identity_map_parsing (lines : List String) (k : String) :
    idLookup (ParseIdentityData lines) k =
      lastVal (lines.filterMap parseIdentityLine) k ∧
    (ParseIdentityData lines).map Prod.fst =
      newKeys [] (lines.filterMap parseIdentityLine) ∧
    ParseIdentityData (lines.filter fun l => (parseIdentityLine l).isSome) =
      ParseIdentityData lines := by
  refine ⟨?_, ?_, ?_⟩
  · rw [ParseIdentityData, idLookup_foldl_insertIdentity]
    cases h : lastVal (lines.filterMap parseIdentityLine) k <;>
      simp [idLookup]
  · simpa using map_fst_foldl_insertIdentity (lines.filterMap parseIdentityLine) []
  · rw [ParseIdentityData, ParseIdentityData, filterMap_filter_isSome]

open Auth in
/-- C6: FetchJWTToken delivers to its callback, exactly once (the single
value of the functional model), the full HTTP response body as the token on
status 200, and the corresponding error value for a non-200 status, a
transport error, a probe failure or a signing failure; the number of HTTP
requests issued never exceeds one, so no retry is performed at this layer
(the behaviour exercised by FetchJWTTokenTest,
src/api/auth_test.cpp 124-176). -/
theorem C6_fetch_jwt_token_callback (probe : Except Unit (List String))
    (sign : List (String × String) → Except Unit String)
    (post : String → Except Unit HttpResponse) :
    (∀ lines sig resp, probe = .ok lines →
        sign (ParseIdentityData lines) = .ok sig → post sig = .ok resp →
        resp.status = 200 →
        FetchJWTToken probe sign post = (.ok resp.body, 1)) ∧
    (∀ lines sig resp, probe = .ok lines →
        sign (ParseIdentityData lines) = .ok sig → post sig = .ok resp →
        resp.status ≠ 200 →
        FetchJWTToken probe sign post = (.error .TransportError, 1)) ∧
    (∀ e, probe = .error e →
        FetchJWTToken probe sign post = (.error .ProbeError, 0)) ∧
    (∀ lines e, probe = .ok lines →
        sign (ParseIdentityData lines) = .error e →
        FetchJWTToken probe sign post = (.error .SignError, 0)) ∧
    (∀ lines sig e, probe = .ok lines →
        sign (ParseIdentityData lines) = .ok sig → post sig = .error e →
        FetchJWTToken probe sign post = (.error .TransportError, 1)) ∧
    (FetchJWTToken probe sign post).2 ≤ 1 := by
  refine ⟨?_, ?_, ?_, ?_, ?_, ?_⟩
  · intro lines sig resp hp hs hpost hst
    simp [FetchJWTToken, hp, hs, hpost, hst]
  · intro lines sig resp hp hs hpost hst
    have hst2 : (resp.status == 200) = false := by
      rw [beq_eq_false_iff_ne]; exact hst
    simp [FetchJWTToken, hp, hs, hpost, hst2]
  · intro e hp
    simp [FetchJWTToken, hp]
  · intro lines e hp hs
    simp [FetchJWTToken, hp, hs]
  · intro lines sig e hp hs hpost
    simp [FetchJWTToken, hp, hs, hpost]
  · cases probe with
    | error e => simp [FetchJWTToken]
    | ok lines =>
        cases hs : sign (ParseIdentityData lines) with
        | error e => simp [FetchJWTToken, hs]
        | ok sig =>
            cases hpost : post sig with
            | error e => simp [FetchJWTToken, hs, hpost]
            | ok resp =>
                cases h : resp.status == 200 <;> simp [FetchJWTToken, hs, hpost, h]

open Auth in
/-- Witness for C6: the scenario of FetchJWTTokenTest - the backend answers
status 200 with body FOOBARJWTTOKEN, the probe and the signer succeed - and
the probe-failure path. -/
theorem C6_fetch_jwt_token_callback_witness :
    FetchJWTToken (.ok setUpScriptOutput) (fun _ => .ok "SIGNATURE")
        (fun _ => .ok { status := 200, body := "FOOBARJWTTOKEN" }) =
      (.ok "FOOBARJWTTOKEN", 1) ∧
    FetchJWTToken (.error ()) (fun _ => .ok "SIGNATURE")
        (fun _ => .ok { status := 200, body := "FOOBARJWTTOKEN" }) =
      (.error .ProbeError, 0) :=
  ⟨(C6_fetch_jwt_token_callback (.ok setUpScriptOutput) (fun _ => .ok "SIGNATURE")
      (fun _ => .ok { status := 200, body := "FOOBARJWTTOKEN" })).1
      setUpScriptOutput "SIGNATURE" { status := 200, body := "FOOBARJWTTOKEN" }
      rfl rfl rfl rfl,
   (C6_fetch_jwt_token_callback (.error ()) (fun _ => .ok "SIGNATURE")
      (fun _ => .ok { status := 200, body := "FOOBARJWTTOKEN" })).2.2.1 () rfl⟩
